import Mathlib

/-!
Shallow embedding of the data model and the transformation core of
`src/streamlit_app.py` (the RA dashboard), together with theorems that
settle the frozen claims about it.

Conventions of the embedding:

* A pandas DataFrame is a `List` of row structures; a boolean-mask filter
  is `List.filter`; positional `.iat[0]` on an empty selection is an
  `Except.error` carrying the IndexError message, mirroring the exception
  pandas raises there.
* A pandas/NumPy float64 value is a `PFloat`: either NaN, +inf, -inf, or a
  finite value carried as a rational.  Finite division is modelled by exact
  rational division (the spec allows floating rounding tolerance); the
  special values follow IEEE-754 true-division semantics, which NumPy
  scalars use (division by zero warns and returns an inf or nan, it does
  not raise).
* A parsed `pd.Timestamp` is a `Date` (year, month, day) ordered
  chronologically, i.e. lexicographically on (year, month, day).
* The raw CSV date cell is abstracted as `Option Date`: `some d` stands
  for a well-formed date string that `pd.to_datetime` parses to `d`,
  `none` for a malformed string on which parsing raises.
-/

/-- A pandas/NumPy float64 value: NaN, +infinity, -infinity, or a finite
value (modelled exactly as a rational). -/
inductive PFloat where
  | nan : PFloat
  | inf : PFloat
  | ninf : PFloat
  | num : ℚ → PFloat
deriving DecidableEq, Repr

/-- `math.isnan` on a float value. -/
def PFloat.isNan : PFloat → Bool
  | .nan => true
  | _ => false

/-- IEEE-754 true division as NumPy performs it on float64 scalars:
division by zero yields inf, negative inf or nan (with a RuntimeWarning,
never an exception); finite-by-finite division is modelled by exact
rational division. -/
def PFloat.div : PFloat → PFloat → PFloat
  | .nan, _ => .nan
  | _, .nan => .nan
  | .inf, .inf => .nan
  | .inf, .ninf => .nan
  | .ninf, .inf => .nan
  | .ninf, .ninf => .nan
  | .inf, .num y => if 0 ≤ y then .inf else .ninf
  | .ninf, .num y => if 0 ≤ y then .ninf else .inf
  | .num _, .inf => .num 0
  | .num _, .ninf => .num 0
  | .num x, .num y =>
      if y = 0 then (if x = 0 then .nan else if 0 < x then .inf else .ninf)
      else .num (x / y)

/-- A parsed calendar date (`pd.Timestamp` truncated to its date part). -/
structure Date where
  year : Int
  month : Nat
  day : Nat
deriving DecidableEq, Repr

/-- Chronological order on parsed dates: lexicographic on
(year, month, day). -/
def Date.Le (a b : Date) : Prop :=
  a.year < b.year ∨
    (a.year = b.year ∧
      (a.month < b.month ∨ (a.month = b.month ∧ a.day ≤ b.day)))

instance (a b : Date) : Decidable (Date.Le a b) := by
  unfold Date.Le
  exact inferInstance

/-- Smaller of two dates, used to model `Series.min` on the Date column. -/
def Date.minD (a b : Date) : Date := if Date.Le a b then a else b

/-- Larger of two dates, used to model `Series.max` on the Date column. -/
def Date.maxD (a b : Date) : Date := if Date.Le a b then b else a

/-- A raw row of `data/all_nbly_Jan2025.csv` as `pd.read_csv` delivers it,
restricted to the four columns the script selects.  `dateCell` abstracts
the raw date string: `some d` if it parses to the date `d`, `none` if it
is malformed.  An empty Amount cell arrives as `PFloat.nan`. -/
structure RawRaRow where
  caseId : String
  county : String
  dateCell : Option Date
  amount : PFloat
deriving DecidableEq, Repr

/-- A row of the normalized RA table `ra_df` produced by `get_ra_data`:
the four selected columns with the Date column parsed. -/
structure NormalizedRecord where
  caseId : String
  county : String
  date : Date
  amount : PFloat
deriving DecidableEq, Repr

/-- The column list of line 94:
`raw_ra_df[['Case Id','ApplicantInfo_CountyResidence','Date','Amount']]`.
These, and only these, are the columns of the normalized RA table. -/
def ra_output_columns : List String :=
  ["Case Id", "ApplicantInfo_CountyResidence", "Date", "Amount"]

/-- Error message standing for the exception `pd.to_datetime` raises on a
malformed date string (aborting the whole ingestion). -/
def parseErrorMsg : String := "ParseError: unable to parse date"

/-- `get_ra_data` (lines 63-99): select the four columns and parse the
Date column with `pd.to_datetime`; a single malformed date aborts the
whole call. -/
def get_ra_data : List RawRaRow → Except String (List NormalizedRecord)
  | [] => Except.ok []
  | s :: t =>
    match s.dateCell with
    | none => Except.error parseErrorMsg
    | some d =>
      match get_ra_data t with
      | Except.error e => Except.error e
      | Except.ok rest =>
          Except.ok ({ caseId := s.caseId, county := s.county, date := d, amount := s.amount } :: rest)

/-- A raw row of the GDP CSV: the country code plus one cell per year
column; `cell y` is the float in column `str(y)` (NaN when the CSV cell
is empty). -/
structure RawGdpRow where
  countryCode : String
  cell : Int → PFloat

/-- A row of the long-format GDP table produced by the melt. -/
structure GdpRecord where
  countryCode : String
  year : Int
  gdp : PFloat
deriving DecidableEq, Repr

/-- `intRange lo n` is the list of the `n` consecutive integers starting
at `lo`, the model of Python `range` over integer year labels. -/
def intRange : Int → Nat → List Int
  | _, 0 => []
  | lo, n + 1 => lo :: intRange (lo + 1) n

/-- The year columns melted by `get_gdp_data`:
`[str(x) for x in range(MIN_YEAR, MAX_YEAR + 1)]` with MIN_YEAR = 1960 and
MAX_YEAR = 2022, already converted to integers (line 56 `pd.to_numeric`). -/
def gdpYears : List Int := intRange 1960 63

/-- `get_gdp_data` (lines 16-58): `raw_gdp_df.melt(['Country Code'],
year_columns, 'Year', 'GDP')` followed by integer conversion of Year.
`melt` stacks the year columns one after the other: for each year column,
every source row contributes exactly one output record, whether or not its
cell is NaN (melt performs no NaN dropping). -/
def get_gdp_data (raw : List RawGdpRow) : List GdpRecord :=
  gdpYears.flatMap (fun y =>
    raw.map (fun r => { countryCode := r.countryCode, year := y, gdp := r.cell y }))

/-- The GDP reshape as the spec words it: the same wide-to-long pivot, but
a source row whose year cell is absent (NaN) contributes no output record
for that year. -/
def specGdpMelt (raw : List RawGdpRow) : List GdpRecord :=
  gdpYears.flatMap (fun y =>
    (raw.filter (fun r => !(r.cell y).isNan)).map
      (fun r => { countryCode := r.countryCode, year := y, gdp := r.cell y }))

/-- `ra_df['ApplicantInfo_CountyResidence'].unique()` (line 127): the
distinct counties in first-occurrence order. -/
def uniqueFirst (l : List String) : List String :=
  l.foldl (fun acc a => if acc.contains a then acc else acc ++ [a]) []

/-- `counties` (line 127): the distinct counties of the normalized table;
also the default (pre-selected) value of the county multiselect
(line 135). -/
def counties (records : List NormalizedRecord) : List String :=
  uniqueFirst (records.map (fun r => r.county))

/-- `min_value = ra_df['Date'].min()` (line 117): `none` models NaT on an
empty table. -/
def min_value (records : List NormalizedRecord) : Option Date :=
  match records.map (fun r => r.date) with
  | [] => none
  | d :: ds => some (ds.foldl Date.minD d)

/-- `max_value = ra_df['Date'].max()` (line 118). -/
def max_value (records : List NormalizedRecord) : Option Date :=
  match records.map (fun r => r.date) with
  | [] => none
  | d :: ds => some (ds.foldl Date.maxD d)

/-- `filtered_ra_df` (lines 142-146): the boolean-mask filter
`(county isin selected) & (Date <= to_date) & (from_date <= Date)`. -/
def filtered_ra_df (records : List NormalizedRecord) (selected_counties : List String)
    (from_date to_date : Date) : List NormalizedRecord :=
  records.filter (fun r =>
    selected_counties.contains r.county
      && decide (Date.Le r.date to_date)
      && decide (Date.Le from_date r.date))

/-- The filter as the spec words it, at year granularity:
records whose county is selected and whose year lies in the inclusive
integer range [yearLow, yearHigh]. -/
def specYearFilter (records : List NormalizedRecord) (selected_counties : List String)
    (yearLow yearHigh : Int) : List NormalizedRecord :=
  records.filter (fun r =>
    selected_counties.contains r.county
      && decide (yearLow ≤ r.date.year)
      && decide (r.date.year ≤ yearHigh))

/-- `first_year = ra_df[ra_df['Date'] == from_date]` (line 163). -/
def first_year (records : List NormalizedRecord) (from_date : Date) : List NormalizedRecord :=
  records.filter (fun r => decide (r.date = from_date))

/-- `last_year = ra_df[ra_df['Date'] == to_date]` (line 164). -/
def last_year (records : List NormalizedRecord) (to_date : Date) : List NormalizedRecord :=
  records.filter (fun r => decide (r.date = to_date))

/-- The message of the exception `.iat[0]` raises on an empty
selection. -/
def indexErrorMsg : String :=
  "IndexError: index 0 is out of bounds for axis 0 with size 0"

/-- `rows[rows[county_col] == county]['Amount'].iat[0]`: the Amount of the
first row (in source order) of `rows` whose county matches; raises
IndexError when no row matches. -/
def amount_iat0 (rows : List NormalizedRecord) (county : String) : Except String PFloat :=
  match (rows.filter (fun r => decide (r.county = county))).head? with
  | some r => Except.ok r.amount
  | none => Except.error indexErrorMsg

/-- `first_ra` (line 176): the Amount of the first record dated exactly
`from_date` for the county. -/
def first_ra (records : List NormalizedRecord) (from_date : Date) (county : String) :
    Except String PFloat :=
  amount_iat0 (first_year records from_date) county

/-- `last_ra` (line 177): the Amount of the first record dated exactly
`to_date` for the county. -/
def last_ra (records : List NormalizedRecord) (to_date : Date) (county : String) :
    Except String PFloat :=
  amount_iat0 (last_year records to_date) county

/-- Absolute value of a rational, written explicitly so that concrete
renderings evaluate by kernel reduction. -/
def ratAbs (q : ℚ) : ℚ := if q < 0 then -q else q

/-- Round a rational to the nearest integer, ties to even: the rounding
Python string formatting applies to the (correctly rounded) decimal
rendering of a float. -/
def roundHalfEven (q : ℚ) : Int :=
  let f : Int := q.floor
  let rNum : Int := q.num - f * (q.den : Int)
  if 2 * rNum < (q.den : Int) then f
  else if (q.den : Int) < 2 * rNum then f + 1
  else if f % 2 = 0 then f else f + 1

/-- The decimal digits of a natural number, least significant first. -/
def natDigitsRev (n : Nat) : List Char := (Nat.toDigits 10 n).reverse

/-- Group a (least-significant-first) digit list into blocks of three, as
the thousands grouping of Python format spec `,` does. -/
def group3 : List Char → List (List Char)
  | [] => []
  | a :: b :: c :: rest@(_ :: _) => [a, b, c] :: group3 rest
  | l => [l]

/-- Render a natural number in decimal with a comma as thousands
separator (Python format spec `,`). -/
def natGrouped (n : Nat) : String :=
  String.mk (List.intercalate [','] (group3 (natDigitsRev n))).reverse

/-- The two fractional digits of a `.2f` rendering: `c` is the rounded
value in hundredths; renders `c % 100` as exactly two digit characters. -/
def twoDigits (c : Nat) : String :=
  String.mk [Nat.digitChar (c / 10 % 10), Nat.digitChar (c % 10)]

/-- Python `f'{v:,.2f}'` on a float64 value: special values render as
`nan`, `inf`, `-inf`; a finite value is rounded to hundredths (ties to
even) and rendered with a comma-grouped integer part and exactly two
fractional digits. -/
def formatFixed2 : PFloat → String
  | .nan => "nan"
  | .inf => "inf"
  | .ninf => "-inf"
  | .num q =>
      let sgn := if q < 0 then "-" else ""
      let cents := (roundHalfEven (ratAbs q * 100)).toNat
      sgn ++ natGrouped (cents / 100) ++ "." ++ twoDigits (cents % 100)

/-- Python `f'{v:,.0f}'` on a float64 value: like `formatFixed2` but
rounded to an integer and rendered with no decimal point. -/
def formatFixed0 : PFloat → String
  | .nan => "nan"
  | .inf => "inf"
  | .ninf => "-inf"
  | .num q =>
      let sgn := if q < 0 then "-" else ""
      sgn ++ natGrouped (roundHalfEven (ratAbs q)).toNat

/-- The arguments of one `st.metric` call (lines 186-191): the rendered
value string, the growth string shown as the delta, and the delta color
flag (`off` = neutral, `normal` = actionable). -/
structure MetricView where
  county : String
  valueStr : String
  growth : String
  delta_color : String
deriving DecidableEq, Repr

/-- The body of the per-county loop (lines 175-191): look up `first_ra`
and `last_ra` by positional indexing (either lookup raises IndexError on
an empty selection), then branch on `math.isnan(first_ra)`:  NaN gives
the sentinel growth `n/a` with neutral color `off`; otherwise growth is
`f'{last_ra / first_ra:,.2f}x'` with color `normal`. -/
def computeMetric (records : List NormalizedRecord) (from_date to_date : Date)
    (county : String) : Except String MetricView :=
  match first_ra records from_date county with
  | Except.error e => Except.error e
  | Except.ok fra =>
    match last_ra records to_date county with
    | Except.error e => Except.error e
    | Except.ok lra =>
      if fra.isNan then
        Except.ok { county := county, valueStr := formatFixed0 lra ++ "B",
                    growth := "n/a", delta_color := "off" }
      else
        Except.ok { county := county, valueStr := formatFixed0 lra ++ "B",
                    growth := formatFixed2 (PFloat.div lra fra) ++ "x", delta_color := "normal" }

/-- The `for i, county in enumerate(selected_counties)` loop (lines
172-191): one `st.metric` per selected county, in selection order; an
exception in any iteration aborts the whole loop (and the script run), so
later counties produce nothing. -/
def st_metric_loop (records : List NormalizedRecord) (from_date to_date : Date)
    (selected_counties : List String) : Except String (List MetricView) :=
  selected_counties.mapM (computeMetric records from_date to_date)

/-- The filter-and-aggregate core of the page (lines 142-191): the
filtered series for the chart together with the per-county metric
sequence.  A pure function of the normalized records and the filter
parameters (selected counties and the two date bounds). -/
def filterAndAggregate (records : List NormalizedRecord) (selected_counties : List String)
    (from_date to_date : Date) :
    List NormalizedRecord × Except String (List MetricView) :=
  (filtered_ra_df records selected_counties from_date to_date,
   st_metric_loop records from_date to_date selected_counties)

/-- Decidable equality of `Except` results, for evaluating concrete
metric computations. -/
instance {e a : Type} [DecidableEq e] [DecidableEq a] : DecidableEq (Except e a) := fun x y =>
  match x, y with
  | .error u, .error v => decidable_of_iff (u = v) (by simp)
  | .ok u, .ok v => decidable_of_iff (u = v) (by simp)
  | .error _, .ok _ => Decidable.isFalse (by simp)
  | .ok _, .error _ => Decidable.isFalse (by simp)

/-! ### Helper lemmas -/

theorem Date.Le.refl (a : Date) : Date.Le a a := by
  unfold Date.Le
  omega

theorem Date.Le.trans {a b c : Date} (h₁ : Date.Le a b) (h₂ : Date.Le b c) :
    Date.Le a c := by
  unfold Date.Le at h₁ h₂ ⊢
  omega

theorem Date.Le.total (a b : Date) : Date.Le a b ∨ Date.Le b a := by
  unfold Date.Le
  omega

theorem Date.minD_le_left (a b : Date) : Date.Le (Date.minD a b) a := by
  unfold Date.minD
  split
  · exact Date.Le.refl a
  · rcases Date.Le.total a b with h | h
    · contradiction
    · exact h

theorem Date.minD_le_right (a b : Date) : Date.Le (Date.minD a b) b := by
  unfold Date.minD
  split
  · assumption
  · exact Date.Le.refl b

theorem Date.left_le_maxD (a b : Date) : Date.Le a (Date.maxD a b) := by
  unfold Date.maxD
  split
  · assumption
  · exact Date.Le.refl a

theorem Date.right_le_maxD (a b : Date) : Date.Le b (Date.maxD a b) := by
  unfold Date.maxD
  split
  · exact Date.Le.refl b
  · rcases Date.Le.total a b with h | h
    · contradiction
    · exact h

theorem foldl_minD_le (ds : List Date) (d : Date) :
    Date.Le (ds.foldl Date.minD d) d ∧ ∀ x ∈ ds, Date.Le (ds.foldl Date.minD d) x := by
  induction ds generalizing d with
  | nil => exact ⟨Date.Le.refl d, by simp⟩
  | cons e t ih =>
    have h := ih (Date.minD d e)
    refine ⟨Date.Le.trans h.1 (Date.minD_le_left d e), ?_⟩
    intro x hx
    rcases List.mem_cons.mp hx with rfl | hx
    · exact Date.Le.trans h.1 (Date.minD_le_right d x)
    · exact h.2 x hx

theorem le_foldl_maxD (ds : List Date) (d : Date) :
    Date.Le d (ds.foldl Date.maxD d) ∧ ∀ x ∈ ds, Date.Le x (ds.foldl Date.maxD d) := by
  induction ds generalizing d with
  | nil => exact ⟨Date.Le.refl d, by simp⟩
  | cons e t ih =>
    have h := ih (Date.maxD d e)
    refine ⟨Date.Le.trans (Date.left_le_maxD d e) h.1, ?_⟩
    intro x hx
    rcases List.mem_cons.mp hx with rfl | hx
    · exact Date.Le.trans (Date.right_le_maxD d x) h.1
    · exact h.2 x hx

theorem mem_foldl_uniqueStep_of_mem_acc (l acc : List String) (x : String) (hx : x ∈ acc) :
    x ∈ l.foldl (fun acc a => if acc.contains a then acc else acc ++ [a]) acc := by
  induction l generalizing acc with
  | nil => simpa using hx
  | cons a t ih =>
    simp only [List.foldl_cons]
    apply ih
    split
    · exact hx
    · exact List.mem_append_left _ hx

theorem mem_foldl_uniqueStep_of_mem (l acc : List String) (x : String) (hx : x ∈ l) :
    x ∈ l.foldl (fun acc a => if acc.contains a then acc else acc ++ [a]) acc := by
  induction l generalizing acc with
  | nil => simp at hx
  | cons a t ih =>
    simp only [List.foldl_cons]
    rcases List.mem_cons.mp hx with rfl | hx
    · apply mem_foldl_uniqueStep_of_mem_acc
      split
      · exact List.elem_iff.mp (by assumption)
      · exact List.mem_append_right _ (List.mem_singleton.mpr rfl)
    · exact ih _ hx

theorem mem_uniqueFirst_of_mem (l : List String) (x : String) (hx : x ∈ l) :
    x ∈ uniqueFirst l :=
  mem_foldl_uniqueStep_of_mem l [] x hx

theorem mem_counties_of_mem (records : List NormalizedRecord) (r : NormalizedRecord)
    (hr : r ∈ records) : r.county ∈ counties records :=
  mem_uniqueFirst_of_mem _ _ (List.mem_map_of_mem (fun r => r.county) hr)

theorem find?_eq_head?_filter {α : Type} (l : List α) (p : α → Bool) :
    l.find? p = (l.filter p).head? := by
  induction l with
  | nil => rfl
  | cons a t ih =>
    cases h : p a with
    | true =>
      rw [List.find?_cons_of_pos _ h, List.filter_cons_of_pos h]
      rfl
    | false =>
      rw [List.find?_cons_of_neg _ (by simp [h]), List.filter_cons_of_neg (by simp [h]), ih]

theorem amount_iat0_cases (rows : List NormalizedRecord) (county : String) :
    amount_iat0 rows county = Except.error indexErrorMsg ∨
      ∃ v, amount_iat0 rows county = Except.ok v := by
  unfold amount_iat0
  cases (rows.filter (fun r => decide (r.county = county))).head? with
  | none => exact Or.inl rfl
  | some r => exact Or.inr ⟨r.amount, rfl⟩

theorem get_ra_data_mem (raw : List RawRaRow) (recs : List NormalizedRecord)
    (h : get_ra_data raw = Except.ok recs) :
    ∀ r ∈ recs, ∃ s ∈ raw, s.caseId = r.caseId ∧ s.county = r.county ∧
      s.dateCell = some r.date ∧ s.amount = r.amount := by
  induction raw generalizing recs with
  | nil =>
    simp only [get_ra_data, Except.ok.injEq] at h
    subst h
    simp
  | cons a t ih =>
    cases hcell : a.dateCell with
    | none => simp [get_ra_data, hcell] at h
    | some d =>
      cases ht : get_ra_data t with
      | error e => simp [get_ra_data, hcell, ht] at h
      | ok rest =>
        simp only [get_ra_data, hcell, ht, Except.ok.injEq] at h
        subst h
        intro r hr
        rcases List.mem_cons.mp hr with rfl | hr
        · exact ⟨a, List.mem_cons_self a t, rfl, rfl, hcell, rfl⟩
        · rcases ih rest ht r hr with ⟨s, hs, h₁, h₂, h₃, h₄⟩
          exact ⟨s, List.mem_cons_of_mem a hs, h₁, h₂, h₃, h₄⟩

theorem digitChar_isDigit (n : Nat) (h : n < 10) : (Nat.digitChar n).isDigit = true := by
  interval_cases n <;> decide

theorem twoDigits_length (c : Nat) : (twoDigits c).length = 2 := rfl

theorem twoDigits_isDigit (c : Nat) :
    ∀ ch ∈ (twoDigits c).toList, ch.isDigit = true := by
  intro ch hch
  have hl : (twoDigits c).toList = [Nat.digitChar (c / 10 % 10), Nat.digitChar (c % 10)] := rfl
  rw [hl] at hch
  rcases List.mem_cons.mp hch with rfl | hch
  · exact digitChar_isDigit _ (Nat.mod_lt _ (by norm_num))
  · rcases List.mem_cons.mp hch with rfl | hch
    · exact digitChar_isDigit _ (Nat.mod_lt _ (by norm_num))
    · simp at hch

theorem formatFixed2_num_decomp (q : ℚ) :
    formatFixed2 (PFloat.num q) =
      ((if q < 0 then "-" else "") ++ natGrouped ((roundHalfEven (ratAbs q * 100)).toNat / 100))
        ++ "." ++ twoDigits ((roundHalfEven (ratAbs q * 100)).toNat % 100) := rfl

/-! ### Claim theorems -/

/-- C1 (amended): the filter of lines 142-146 keeps exactly the records
whose county is a member of the selected counties and whose parsed date
lies between the two slider bounds, both bounds inclusive; no other
record appears and none of these is omitted.  The bounds are full
calendar dates (the slider values), not years: filtering is at date
granularity. -/
theorem c1_filter_membership (records : List NormalizedRecord)
    (selected_counties : List String) (from_date to_date : Date) (r : NormalizedRecord) :
    r ∈ filtered_ra_df records selected_counties from_date to_date ↔
      r ∈ records ∧ r.county ∈ selected_counties ∧
        Date.Le from_date r.date ∧ Date.Le r.date to_date := by
  unfold filtered_ra_df
  rw [List.mem_filter]
  constructor
  · rintro ⟨hmem, hp⟩
    simp only [Bool.and_eq_true, decide_eq_true_eq] at hp
    exact ⟨hmem, List.elem_iff.mp hp.1.1, hp.2, hp.1.2⟩
  · rintro ⟨hmem, hc, hfrom, hto⟩
    refine ⟨hmem, ?_⟩
    simp only [Bool.and_eq_true, decide_eq_true_eq]
    exact ⟨⟨List.elem_iff.mpr hc, hto⟩, hfrom⟩

/-- C1 counterexample: the claim as stated (year-granular bounds) is
false of the code.  With the slider set to 2020-06-01 .. 2021-06-01, a
record of the selected county dated 2020-01-01 has its year 2020 inside
the inclusive year range [2020, 2021] of the bounds, yet the code's
filter omits it, while the year-granular filter of the spec keeps it. -/
theorem c1_counterexample :
    filtered_ra_df [⟨"1", "A", ⟨2020, 1, 1⟩, PFloat.num 100⟩] ["A"]
        ⟨2020, 6, 1⟩ ⟨2021, 6, 1⟩ = []
    ∧ specYearFilter [⟨"1", "A", ⟨2020, 1, 1⟩, PFloat.num 100⟩] ["A"] 2020 2021
        = [⟨"1", "A", ⟨2020, 1, 1⟩, PFloat.num 100⟩]
    ∧ (Date.mk 2020 6 1).year = 2020 ∧ (Date.mk 2021 6 1).year = 2021 := by
  refine ⟨rfl, rfl, rfl, rfl⟩

/-- C5: with an empty county selection, the filter returns the empty
series and the metric loop runs zero iterations, producing the empty
metric sequence without any error. -/
theorem c5_empty_selection (records : List NormalizedRecord) (from_date to_date : Date) :
    filtered_ra_df records [] from_date to_date = [] ∧
    st_metric_loop records from_date to_date [] = Except.ok [] := by
  constructor
  · unfold filtered_ra_df
    simp
  · rfl

/-- C10: the filter-and-aggregate core is a pure function of the
normalized records and the filter parameters: two invocations on
identical inputs return identical outputs.  (Purity is by construction
of the embedding: the definition of filterAndAggregate reads nothing
beyond its arguments.) -/
theorem c10_deterministic (records₁ records₂ : List NormalizedRecord)
    (sel₁ sel₂ : List String) (fd₁ fd₂ td₁ td₂ : Date)
    (h₁ : records₁ = records₂) (h₂ : sel₁ = sel₂) (h₃ : fd₁ = fd₂) (h₄ : td₁ = td₂) :
    filterAndAggregate records₁ sel₁ fd₁ td₁ = filterAndAggregate records₂ sel₂ fd₂ td₂ := by
  rw [h₁, h₂, h₃, h₄]

/-- C10 witness: the determinism theorem applied at a concrete input. -/
theorem c10_deterministic_witness :
    filterAndAggregate [⟨"1", "A", ⟨2020, 1, 1⟩, PFloat.num 100⟩] ["A"]
        ⟨2020, 1, 1⟩ ⟨2020, 1, 1⟩
      = filterAndAggregate [⟨"1", "A", ⟨2020, 1, 1⟩, PFloat.num 100⟩] ["A"]
        ⟨2020, 1, 1⟩ ⟨2020, 1, 1⟩ :=
  c10_deterministic _ _ _ _ _ _ _ _ rfl rfl rfl rfl

/-- C2 (amended): once both positional lookups have produced a value, the
growth string is the sentinel `n/a` with the neutral color `off` exactly
when `first_ra` is NaN; otherwise it is the ratio `last_ra / first_ra`
formatted by `:,.2f` with an `x` suffix and the actionable color
`normal`, and a finite ratio is rendered with exactly two fractional
digits.  (A missing lookup does not reach this branch: it raises, see the
C3 theorems.) -/
theorem c2_growth_format (records : List NormalizedRecord) (from_date to_date : Date)
    (county : String) (v w : PFloat)
    (hv : first_ra records from_date county = Except.ok v)
    (hw : last_ra records to_date county = Except.ok w) :
    ∃ m, computeMetric records from_date to_date county = Except.ok m ∧
      ((m.growth = "n/a" ∧ m.delta_color = "off") ↔ v.isNan = true) ∧
      (v.isNan = false →
        m.growth = formatFixed2 (PFloat.div w v) ++ "x" ∧ m.delta_color = "normal") ∧
      (∀ q : ℚ, PFloat.div w v = PFloat.num q →
        ∃ s t, formatFixed2 (PFloat.num q) = s ++ "." ++ t ∧ t.length = 2 ∧
          ∀ ch ∈ t.toList, ch.isDigit = true) := by
  have hdig : ∀ q : ℚ, PFloat.div w v = PFloat.num q →
      ∃ s t, formatFixed2 (PFloat.num q) = s ++ "." ++ t ∧ t.length = 2 ∧
        ∀ ch ∈ t.toList, ch.isDigit = true := by
    intro q _
    exact ⟨_, _, formatFixed2_num_decomp q, twoDigits_length _, twoDigits_isDigit _⟩
  cases hNan : v.isNan with
  | true =>
    refine ⟨⟨county, formatFixed0 w ++ "B", "n/a", "off"⟩, ?_, ?_, ?_, hdig⟩
    · simp [computeMetric, hv, hw, hNan]
    · simp
    · intro h
      simp at h
  | false =>
    refine ⟨⟨county, formatFixed0 w ++ "B",
        formatFixed2 (PFloat.div w v) ++ "x", "normal"⟩, ?_, ?_, ?_, hdig⟩
    · simp [computeMetric, hv, hw, hNan]
    · simp [hNan]
    · intro _
      exact ⟨rfl, rfl⟩

/-- C2 witness: the theorem at the spec's own example, county A with
amounts 100 and 150, where the growth renders as `1.50x`. -/
theorem c2_growth_format_witness :
    ∃ m, computeMetric
        [⟨"1", "A", ⟨2020, 1, 1⟩, PFloat.num 100⟩, ⟨"2", "A", ⟨2021, 1, 1⟩, PFloat.num 150⟩]
        ⟨2020, 1, 1⟩ ⟨2021, 1, 1⟩ "A" = Except.ok m ∧
      ((m.growth = "n/a" ∧ m.delta_color = "off") ↔ (PFloat.num 100).isNan = true) ∧
      ((PFloat.num 100).isNan = false →
        m.growth = formatFixed2 (PFloat.div (PFloat.num 150) (PFloat.num 100)) ++ "x" ∧
          m.delta_color = "normal") ∧
      (∀ q : ℚ, PFloat.div (PFloat.num 150) (PFloat.num 100) = PFloat.num q →
        ∃ s t, formatFixed2 (PFloat.num q) = s ++ "." ++ t ∧ t.length = 2 ∧
          ∀ ch ∈ t.toList, ch.isDigit = true) :=
  c2_growth_format _ ⟨2020, 1, 1⟩ ⟨2021, 1, 1⟩ "A" (PFloat.num 100) (PFloat.num 150)
    rfl rfl

/-- C2 counterexample: the claim as stated is false on the missing side
of its iff.  At an input where county A has no record dated `from_date`
(`valueAtLow` is missing), the metric computation raises IndexError
instead of producing the `n/a` sentinel. -/
theorem c2_counterexample :
    (first_year [⟨"1", "A", ⟨2021, 1, 1⟩, PFloat.num 5⟩] ⟨2020, 1, 1⟩ = []) ∧
    computeMetric [⟨"1", "A", ⟨2021, 1, 1⟩, PFloat.num 5⟩] ⟨2020, 1, 1⟩ ⟨2021, 1, 1⟩ "A"
      = Except.error indexErrorMsg :=
  ⟨rfl, rfl⟩

/-- C3 (amended): when no record matches the county at `from_date` (or at
`to_date`), the positional lookup `.iat[0]` raises IndexError, so the
metric computation for that county errors instead of degrading to a
missing value; only a present-but-NaN amount degrades to the `n/a`
sentinel. -/
theorem c3_missing_lookup_raises (records : List NormalizedRecord) (from_date to_date : Date)
    (county : String)
    (h : (first_year records from_date).filter (fun r => decide (r.county = county)) = []
      ∨ (last_year records to_date).filter (fun r => decide (r.county = county)) = []) :
    computeMetric records from_date to_date county = Except.error indexErrorMsg := by
  rcases h with h | h
  · have h1 : first_ra records from_date county = Except.error indexErrorMsg := by
      unfold first_ra amount_iat0
      rw [h]
      rfl
    simp [computeMetric, h1]
  · have h2 : last_ra records to_date county = Except.error indexErrorMsg := by
      unfold last_ra amount_iat0
      rw [h]
      rfl
    rcases amount_iat0_cases (first_year records from_date) county with h1 | ⟨v, h1⟩
    · have h1a : first_ra records from_date county = Except.error indexErrorMsg := h1
      simp [computeMetric, h1a, Except.bind]
    · have h1a : first_ra records from_date county = Except.ok v := h1
      simp [computeMetric, h1a, h2, Except.bind]

/-- C3 witness: the theorem at a concrete input where the county has no
record on the `from_date` bound. -/
theorem c3_missing_lookup_raises_witness :
    computeMetric [⟨"1", "A", ⟨2021, 1, 1⟩, PFloat.num 7⟩] ⟨2020, 1, 1⟩ ⟨2021, 1, 1⟩ "A"
      = Except.error indexErrorMsg :=
  c3_missing_lookup_raises _ _ _ _ (Or.inl rfl)

set_option maxRecDepth 8192 in
/-- C3 counterexample: aggregation does throw, and one county with absent
data does block the rest.  County A has no record dated `from_date`, so
the loop errors on A and county B - whose metric alone computes fine, to
`2.00x` - never renders. -/
theorem c3_counterexample :
    st_metric_loop
        [⟨"1", "A", ⟨2021, 1, 1⟩, PFloat.num 7⟩,
         ⟨"2", "B", ⟨2020, 1, 1⟩, PFloat.num 5⟩,
         ⟨"3", "B", ⟨2021, 1, 1⟩, PFloat.num 10⟩]
        ⟨2020, 1, 1⟩ ⟨2021, 1, 1⟩ ["A", "B"] = Except.error indexErrorMsg ∧
    computeMetric
        [⟨"1", "A", ⟨2021, 1, 1⟩, PFloat.num 7⟩,
         ⟨"2", "B", ⟨2020, 1, 1⟩, PFloat.num 5⟩,
         ⟨"3", "B", ⟨2021, 1, 1⟩, PFloat.num 10⟩]
        ⟨2020, 1, 1⟩ ⟨2021, 1, 1⟩ "B"
      = Except.ok ⟨"B", "10B", "2.00x", "normal"⟩ :=
  ⟨rfl, by with_unfolding_all rfl⟩

/-- C4 (amended): `first_ra` is the amount of the first record in source
order whose county matches and whose parsed date equals the `from_date`
bound exactly (not merely the same year), and `last_ra` is the analogous
first-match amount at `to_date`. -/
theorem c4_first_match_amount (records : List NormalizedRecord) (from_date to_date : Date)
    (county : String) (r₁ r₂ : NormalizedRecord)
    (h₁ : records.find?
        (fun r => decide (r.county = county) && decide (r.date = from_date)) = some r₁)
    (h₂ : records.find?
        (fun r => decide (r.county = county) && decide (r.date = to_date)) = some r₂) :
    first_ra records from_date county = Except.ok r₁.amount ∧
      last_ra records to_date county = Except.ok r₂.amount := by
  constructor
  · unfold first_ra amount_iat0 first_year
    rw [List.filter_filter, ← find?_eq_head?_filter, h₁]
  · unfold last_ra amount_iat0 last_year
    rw [List.filter_filter, ← find?_eq_head?_filter, h₂]

/-- C4 witness: the theorem at a concrete two-record input. -/
theorem c4_first_match_amount_witness :
    first_ra [⟨"1", "A", ⟨2020, 1, 1⟩, PFloat.num 100⟩, ⟨"2", "A", ⟨2021, 1, 1⟩, PFloat.num 150⟩]
        ⟨2020, 1, 1⟩ "A" = Except.ok (PFloat.num 100) ∧
      last_ra [⟨"1", "A", ⟨2020, 1, 1⟩, PFloat.num 100⟩, ⟨"2", "A", ⟨2021, 1, 1⟩, PFloat.num 150⟩]
        ⟨2021, 1, 1⟩ "A" = Except.ok (PFloat.num 150) :=
  c4_first_match_amount _ _ _ "A"
    ⟨"1", "A", ⟨2020, 1, 1⟩, PFloat.num 100⟩ ⟨"2", "A", ⟨2021, 1, 1⟩, PFloat.num 150⟩ rfl rfl

/-- C4 counterexample: the lookup key is the exact date, not the year.
With the bound 2020-06-01, the first record of county A in year 2020 (in
source order, dated 2020-01-01, amount 100) is what the claim designates,
but the code returns the amount 200 of the record dated exactly
2020-06-01. -/
theorem c4_counterexample :
    List.find? (fun r : NormalizedRecord => decide (r.county = "A") && decide (r.date.year = (2020 : Int)))
        [⟨"1", "A", ⟨2020, 1, 1⟩, PFloat.num 100⟩, ⟨"2", "A", ⟨2020, 6, 1⟩, PFloat.num 200⟩]
      = some ⟨"1", "A", ⟨2020, 1, 1⟩, PFloat.num 100⟩
    ∧ first_ra [⟨"1", "A", ⟨2020, 1, 1⟩, PFloat.num 100⟩, ⟨"2", "A", ⟨2020, 6, 1⟩, PFloat.num 200⟩]
        ⟨2020, 6, 1⟩ "A" = Except.ok (PFloat.num 200)
    ∧ (Date.mk 2020 6 1).year = 2020
    ∧ PFloat.num 200 ≠ PFloat.num 100 := by
  refine ⟨rfl, rfl, rfl, ?_⟩
  intro h
  rw [PFloat.num.injEq] at h
  norm_num at h

/-- C6: a present zero `first_ra` (not missing, not NaN) does not raise:
the division produces an infinite or NaN float, which is formatted with
the `x` suffix and returned as the growth string with the `normal`
flag. -/
theorem c6_zero_denominator (records : List NormalizedRecord) (from_date to_date : Date)
    (county : String) (w : PFloat)
    (hv : first_ra records from_date county = Except.ok (PFloat.num 0))
    (hw : last_ra records to_date county = Except.ok w) :
    computeMetric records from_date to_date county =
      Except.ok { county := county, valueStr := formatFixed0 w ++ "B",
                  growth := formatFixed2 (PFloat.div w (PFloat.num 0)) ++ "x",
                  delta_color := "normal" } ∧
    (PFloat.div w (PFloat.num 0) = PFloat.nan ∨ PFloat.div w (PFloat.num 0) = PFloat.inf ∨
      PFloat.div w (PFloat.num 0) = PFloat.ninf) := by
  constructor
  · simp [computeMetric, hv, hw, PFloat.isNan]
  · cases w with
    | nan => simp [PFloat.div]
    | inf => simp [PFloat.div]
    | ninf => simp [PFloat.div]
    | num x =>
      by_cases hx : x = 0
      · simp [PFloat.div, hx]
      · by_cases hpos : 0 < x
        · simp [PFloat.div, hx, hpos]
        · simp [PFloat.div, hx, hpos]

/-- C6 witness: the theorem at a concrete input where county A has
amount 0 at the low bound and 5 at the high bound; the growth renders as
`infx`. -/
theorem c6_zero_denominator_witness :
    computeMetric [⟨"1", "A", ⟨2020, 1, 1⟩, PFloat.num 0⟩, ⟨"2", "A", ⟨2021, 1, 1⟩, PFloat.num 5⟩]
        ⟨2020, 1, 1⟩ ⟨2021, 1, 1⟩ "A" =
      Except.ok { county := "A", valueStr := formatFixed0 (PFloat.num 5) ++ "B",
                  growth := formatFixed2 (PFloat.div (PFloat.num 5) (PFloat.num 0)) ++ "x",
                  delta_color := "normal" } ∧
    (PFloat.div (PFloat.num 5) (PFloat.num 0) = PFloat.nan ∨
      PFloat.div (PFloat.num 5) (PFloat.num 0) = PFloat.inf ∨
      PFloat.div (PFloat.num 5) (PFloat.num 0) = PFloat.ninf) :=
  c6_zero_denominator _ ⟨2020, 1, 1⟩ ⟨2021, 1, 1⟩ "A" (PFloat.num 5) rfl rfl

theorem mem_intRange (n : Nat) : ∀ lo y : Int, y ∈ intRange lo n ↔ lo ≤ y ∧ y < lo + n := by
  induction n with
  | zero =>
    intro lo y
    constructor
    · intro h
      exact absurd h (List.not_mem_nil y)
    · rintro ⟨h1, h2⟩
      exfalso
      omega
  | succ k ih =>
    intro lo y
    constructor
    · intro h
      rcases List.mem_cons.mp h with rfl | h
      · omega
      · have := (ih (lo + 1) y).mp h
        omega
    · rintro ⟨h1, h2⟩
      by_cases hy : y = lo
      · subst hy
        exact List.mem_cons_self y _
      · exact List.mem_cons_of_mem _ ((ih (lo + 1) y).mpr ⟨by omega, by omega⟩)

theorem mem_gdpYears (y : Int) : y ∈ gdpYears ↔ 1960 ≤ y ∧ y ≤ 2022 := by
  unfold gdpYears
  rw [mem_intRange]
  constructor
  · rintro ⟨h1, h2⟩
    refine ⟨h1, ?_⟩
    omega
  · rintro ⟨h1, h2⟩
    refine ⟨h1, ?_⟩
    omega

theorem flatMap_const_length {α β : Type} (l : List α) (f : α → List β) (n : Nat)
    (h : ∀ a ∈ l, (f a).length = n) : (l.flatMap f).length = l.length * n := by
  induction l with
  | nil => simp
  | cons a t ih =>
    rw [List.flatMap_cons, List.length_append, h a (List.mem_cons_self a t),
      ih (fun x hx => h x (List.mem_cons_of_mem a hx)), List.length_cons]
    ring

theorem min_value_le (records : List NormalizedRecord) (d : Date)
    (h : min_value records = some d) : ∀ r ∈ records, Date.Le d r.date := by
  cases records with
  | nil => exact Option.noConfusion h
  | cons a t =>
    simp only [min_value, List.map_cons, Option.some.injEq] at h
    subst h
    intro r hr
    rcases List.mem_cons.mp hr with rfl | hr
    · exact (foldl_minD_le _ _).1
    · exact (foldl_minD_le _ _).2 _ (List.mem_map_of_mem (fun x => x.date) hr)

theorem le_max_value (records : List NormalizedRecord) (d : Date)
    (h : max_value records = some d) : ∀ r ∈ records, Date.Le r.date d := by
  cases records with
  | nil => exact Option.noConfusion h
  | cons a t =>
    simp only [max_value, List.map_cons, Option.some.injEq] at h
    subst h
    intro r hr
    rcases List.mem_cons.mp hr with rfl | hr
    · exact (le_foldl_maxD _ _).1
    · exact (le_foldl_maxD _ _).2 _ (List.mem_map_of_mem (fun x => x.date) hr)

/-- C7 (amended): the GDP reshape is a wide-to-long pivot over the
inclusive year range [1960, 2022]: every output record's year is an
integer in that range and its value is the source cell of its row at that
year; conversely each source row emits one record for every year in the
range - including years whose cell is NaN, which are emitted with the NaN
value, not omitted. -/
theorem c7_gdp_melt (raw : List RawGdpRow) :
    (get_gdp_data raw).length = 63 * raw.length ∧
    (∀ rec ∈ get_gdp_data raw, 1960 ≤ rec.year ∧ rec.year ≤ 2022 ∧
      ∃ row ∈ raw, rec.countryCode = row.countryCode ∧ rec.gdp = row.cell rec.year) ∧
    (∀ row ∈ raw, ∀ y : Int, 1960 ≤ y → y ≤ 2022 →
      ({ countryCode := row.countryCode, year := y, gdp := row.cell y } : GdpRecord)
        ∈ get_gdp_data raw) := by
  refine ⟨?_, ?_, ?_⟩
  · unfold get_gdp_data
    rw [flatMap_const_length gdpYears _ raw.length (fun y _ => List.length_map raw _)]
    rw [show gdpYears.length = 63 from rfl, Nat.mul_comm]
  · intro rec hrec
    rcases List.mem_flatMap.mp hrec with ⟨y, hy, hmem⟩
    rcases List.mem_map.mp hmem with ⟨row, hrow, rfl⟩
    rcases (mem_gdpYears y).mp hy with ⟨h1, h2⟩
    exact ⟨h1, h2, row, hrow, rfl, rfl⟩
  · intro row hrow y h1 h2
    exact List.mem_flatMap.mpr
      ⟨y, (mem_gdpYears y).mpr ⟨h1, h2⟩, List.mem_map.mpr ⟨row, hrow, rfl⟩⟩

/-- C7 witness: the pivot theorem at a one-row table with the constant
cell 1: 63 output records, among them the one for year 1970. -/
theorem c7_gdp_melt_witness :
    (get_gdp_data [⟨"X", fun _ => PFloat.num 1⟩]).length
        = 63 * [(⟨"X", fun _ => PFloat.num 1⟩ : RawGdpRow)].length ∧
    (⟨"X", 1970, PFloat.num 1⟩ : GdpRecord) ∈ get_gdp_data [⟨"X", fun _ => PFloat.num 1⟩] := by
  refine ⟨(c7_gdp_melt _).1, ?_⟩
  exact (c7_gdp_melt [⟨"X", fun _ => PFloat.num 1⟩]).2.2 _ (List.mem_singleton.mpr rfl)
    1970 (by norm_num) (by norm_num)

/-- C7 counterexample: a row whose year cell is absent (NaN) still
contributes an output record for that year - `melt` drops nothing - while
the spec's wording would omit it. -/
theorem c7_counterexample :
    (⟨"X", 1960, PFloat.nan⟩ : GdpRecord) ∈ get_gdp_data [⟨"X", fun _ => PFloat.nan⟩] ∧
    specGdpMelt [⟨"X", fun _ => PFloat.nan⟩] = [] := by
  constructor
  · exact List.mem_flatMap.mpr
      ⟨1960, (mem_gdpYears 1960).mpr ⟨by norm_num, by norm_num⟩,
        List.mem_map.mpr ⟨_, List.mem_singleton.mpr rfl, rfl⟩⟩
  · rfl

/-- C8 (amended): RA ingestion selects exactly the four columns of
line 94 - there is no derived `Year` column - and each normalized record
carries the parsed calendar date (and the untouched case id, county and
amount) of its source row; year information lives only inside the parsed
date. -/
theorem c8_no_year_field :
    ("Year" ∉ ra_output_columns) ∧
    ∀ raw recs, get_ra_data raw = Except.ok recs →
      ∀ r ∈ recs, ∃ s ∈ raw, s.caseId = r.caseId ∧ s.county = r.county ∧
        s.dateCell = some r.date ∧ s.amount = r.amount :=
  ⟨by decide, get_ra_data_mem⟩

/-- C8 witness: the theorem at a one-row input. -/
theorem c8_no_year_field_witness :
    ∃ s ∈ [(⟨"7", "A", some ⟨2020, 1, 2⟩, PFloat.num 3⟩ : RawRaRow)],
      s.caseId = "7" ∧ s.county = "A" ∧ s.dateCell = some (Date.mk 2020 1 2) ∧
        s.amount = PFloat.num 3 :=
  c8_no_year_field.2 [⟨"7", "A", some ⟨2020, 1, 2⟩, PFloat.num 3⟩]
    [⟨"7", "A", ⟨2020, 1, 2⟩, PFloat.num 3⟩] rfl
    ⟨"7", "A", ⟨2020, 1, 2⟩, PFloat.num 3⟩ (List.mem_singleton.mpr rfl)

/-- C8 counterexample: the claim's derived integer year field does not
exist - the normalized RA table's columns are exactly the four selected
on line 94, and `Year` is not among them (the code filters and aggregates
on the full parsed `Date` instead). -/
theorem c8_counterexample :
    ra_output_columns = ["Case Id", "ApplicantInfo_CountyResidence", "Date", "Amount"] ∧
    "Year" ∉ ra_output_columns := by
  exact ⟨rfl, by decide⟩

/-- C9: filtering with the defaults the page computes - the observed
minimum and maximum of the Date column as bounds and the full distinct
county list as selection - returns the entire normalized table. -/
theorem c9_roundtrip (records : List NormalizedRecord) (from_date to_date : Date)
    (hmin : min_value records = some from_date)
    (hmax : max_value records = some to_date) :
    filtered_ra_df records (counties records) from_date to_date = records := by
  apply List.filter_eq_self.mpr
  intro r hr
  simp only [Bool.and_eq_true, decide_eq_true_eq]
  exact ⟨⟨List.elem_iff.mpr (mem_counties_of_mem records r hr),
    le_max_value records to_date hmax r hr⟩,
    min_value_le records from_date hmin r hr⟩

/-- C9 witness: the round trip at a concrete two-county table. -/
theorem c9_roundtrip_witness :
    filtered_ra_df
        [⟨"1", "A", ⟨2020, 1, 1⟩, PFloat.num 1⟩, ⟨"2", "B", ⟨2021, 2, 3⟩, PFloat.num 2⟩]
        (counties [⟨"1", "A", ⟨2020, 1, 1⟩, PFloat.num 1⟩, ⟨"2", "B", ⟨2021, 2, 3⟩, PFloat.num 2⟩])
        ⟨2020, 1, 1⟩ ⟨2021, 2, 3⟩
      = [⟨"1", "A", ⟨2020, 1, 1⟩, PFloat.num 1⟩, ⟨"2", "B", ⟨2021, 2, 3⟩, PFloat.num 2⟩] :=
  c9_roundtrip _ _ _ rfl rfl
